import Mathlib

/-!
Verification development for the KREIOS-150 areaDetector driver
(`kreiosApp/src/kreios.cpp`), a client of the SpecsLab Prodigy Remote In
protocol.  The driver's data model and the relevant operations are embedded
shallowly: machine doubles are modelled as rationals, heap buffers as
functions `ℕ → ℚ`, the EPICS parameter store as explicit record fields, and
the acquisition worker `Kreios::kreiosTask` as a fold over a list of poll
events supplied by an environment.
-/

namespace Kreios

/-- Requests the driver can send to the Prodigy server, as issued through
`Kreios::commandResponse`.  Mirrors the `KREIOS_CMD_*` strings used by
`kreios.cpp`. -/
inductive Cmd where
  | clearSpectrum
  | defineFAT
  | defineSFAT
  | defineFRR
  | defineFE
  | defineLVS
  | validateSpectrum
  | start
  | abort
  | getStatus
  | getData (fromIdx toIdx : ℕ)
  | getDataInfo
  | getValue
  | connectRelated
  deriving DecidableEq

/-- The `ADStatus` values the driver writes (subset of the areaDetector enum
used by `kreios.cpp`). -/
inductive ADStat where
  | idle
  | initializing
  | acquiring
  | error
  | aborted
  deriving DecidableEq

/-!
## Protocol client

`Kreios::asynWriteRead` (kreios.cpp lines 1643-1663) writes the command
string on the asyn octet port; the port was configured with output EOS
`"\n"` in `Kreios::asynPortConnect` (called at line 314 with `"\n", "\n"`),
so the bytes on the wire are the command followed by a line feed.  No
request identifier of any kind is generated.
-/

/-- The exact line the driver puts on the TCP connection for a command:
the command text plus the LF end-of-string appended by the asyn layer. -/
def kreiosRequestLine (command : String) : String := command ++ "\n"

/-- Character class removed by `Kreios::cleanString` with its default
`search = ": \n"` argument (kreios.cpp lines 1669-1681 and the header
default). -/
def isCleanSep (c : Char) : Bool := c == ':' || c == ' ' || c == '\n'

/-- `Kreios::cleanString`: strip leading and trailing characters drawn
from `": \n"` (kreios.cpp lines 1669-1681), on the character list. -/
def cleanChars (l : List Char) : List Char :=
  ((l.dropWhile isCleanSep).reverse.dropWhile isCleanSep).reverse

/-- Tokenisation as done by `std::getline(ss, token, c)`: split the
character list at every occurrence of `c`.  (For a string ending in the
delimiter, `getline` omits the final empty token that this produces; such
a token is empty, contains no `=` and does not clean to `ERROR`, so the
difference cannot affect `parseResponse`.) -/
def splitOnChar (c : Char) : List Char → List (List Char)
  | [] => [[]]
  | ch :: rest =>
      if ch == c then [] :: splitOnChar c rest
      else
        match splitOnChar c rest with
        | [] => [[ch]]
        | t :: ts => (ch :: t) :: ts

/-- Reply parsing of `Kreios::commandResponse` (kreios.cpp lines 1611-1636):
split the reply on `:`; a token containing `=` contributes a key-value
pair (key before the first `=`, value after it); a token that cleans to
the literal `ERROR` (`KREIOS_ERROR_STRING`) turns the status to error.
Returns (status, parsed pairs); `true` means `asynSuccess`.  Note that no
request/reply identifier is consulted anywhere. -/
def parseResponse (response : String) : Bool × List (String × String) :=
  (splitOnChar ':' response.toList).foldl
    (fun acc token =>
      match splitOnChar '=' token with
      | [] => acc
      | [_] => if cleanChars token = "ERROR".toList then (false, acc.2) else acc
      | key :: rest =>
          (acc.1, acc.2 ++
            [(String.mk (cleanChars key),
              String.mk (cleanChars (List.intercalate ['='] rest)))]))
    (true, [])

/-- Modelled from the spec: a Prodigy Remote In request line must start
with `?`, four hexadecimal digits and a space before the command token
(spec sections 4.2 and 6; `Documentation/SpecsLabProdigy_RemoteIn.md`
sections 1.2-1.3).  This definition follows the specification words and is
compared against the code-side `kreiosRequestLine`. -/
def isHexDigitChar (c : Char) : Bool :=
  c.isDigit || (decide ('A' ≤ c) && decide (c ≤ 'F')) || (decide ('a' ≤ c) && decide (c ≤ 'f'))

def isProdigyFramedRequest (s : String) : Bool :=
  match s.toList with
  | q :: h1 :: h2 :: h3 :: h4 :: sp :: _ =>
      q == '?' && isHexDigitChar h1 && isHexDigitChar h2 && isHexDigitChar h3 &&
        isHexDigitChar h4 && sp == ' '
  | _ => false

/-!
## Chunk distribution loops

Embedding of the data-storage loops of `Kreios::kreiosTask`
(kreios.cpp lines 669-721).  Each received chunk `values` is consumed with a
running `index` starting at 0; the loops write into the accumulators
(`spectrum`, `image`, `volume`) and the NDArray buffer `ndData`.
`accesses` is ghost state recording, in order, every index at which
`values[index]` is read (one entry per `index++` in the source).
-/

/-- State threaded through the 1-D storage loop (kreios.cpp lines 671-680). -/
structure Dist1 where
  spectrum : ℕ → ℚ
  ndData : ℕ → ℚ
  index : ℕ
  accesses : List ℕ

/-- Body of the 1-D loop for a single energy point `x`
(kreios.cpp lines 672-679). -/
def store1DStep (iteration : ℕ) (values : List ℚ) (st : Dist1) (x : ℕ) : Dist1 :=
  let v := values.getD st.index 0
  let spectrum :=
    if iteration = 0 then Function.update st.spectrum x v
    else Function.update st.spectrum x (st.spectrum x + v)
  let ndData :=
    if iteration = 0 then Function.update st.ndData x v
    else Function.update st.ndData x (st.ndData x + v)
  { spectrum := spectrum, ndData := ndData,
    index := st.index + 1, accesses := st.accesses ++ [st.index] }

/-- The 1-D storage loop: `for (x = currentDataPoint; x < readEndDataPoint; x++)`
(kreios.cpp lines 671-680). -/
def store1D (iteration cur readEnd : ℕ) (values : List ℚ) (st : Dist1) : Dist1 :=
  (List.range' cur (readEnd - cur)).foldl (store1DStep iteration values) st

/-- State threaded through the 2-D storage loop (kreios.cpp lines 683-696). -/
structure Dist2 where
  image : ℕ → ℚ
  ndData : ℕ → ℚ
  spectrum : ℕ → ℚ
  index : ℕ
  accesses : List ℕ

/-- Body of the 2-D loop for pixel `y` and energy point `x`
(kreios.cpp lines 684-695); `S` is `energyChannels`.  The cell written is
`(y * energyChannels) + x`, and the 1-D spectrum always sums. -/
def store2DStep (S iteration : ℕ) (values : List ℚ) (y : ℕ) (st : Dist2) (x : ℕ) : Dist2 :=
  let v := values.getD st.index 0
  let cell := y * S + x
  let ndData :=
    if iteration = 0 then Function.update st.ndData cell v
    else Function.update st.ndData cell (st.ndData cell + v)
  let image :=
    if iteration = 0 then Function.update st.image cell v
    else Function.update st.image cell (st.image cell + v)
  let spectrum := Function.update st.spectrum x (st.spectrum x + v)
  { image := image, ndData := ndData, spectrum := spectrum,
    index := st.index + 1, accesses := st.accesses ++ [st.index] }

/-- The 2-D storage loop: `for (y = 0; y < nonEnergyChannels; y++)
{ for (x = currentDataPoint; x < readEndDataPoint; x++) ... }`
(kreios.cpp lines 683-696). -/
def store2D (S V iteration cur readEnd : ℕ) (values : List ℚ) (st : Dist2) : Dist2 :=
  (List.range V).foldl
    (fun st y => (List.range' cur (readEnd - cur)).foldl (store2DStep S iteration values y) st)
    st

/-- State threaded through the 3-D storage loop (kreios.cpp lines 701-720). -/
structure Dist3 where
  volume : ℕ → ℚ
  ndData : ℕ → ℚ
  spectrum : ℕ → ℚ
  index : ℕ
  accesses : List ℕ

/-- Body of the 3-D loop for slice `z`, pixel `y`, energy point `x`
(kreios.cpp lines 703-718): the write happens only under the guard
`index < numRxDataPoints`, at `flatIdx = z * (S * V) + y * S + x`. -/
def store3DStep (S V iteration numRx : ℕ) (values : List ℚ) (z y : ℕ) (st : Dist3) (x : ℕ) :
    Dist3 :=
  let flatIdx := z * (S * V) + y * S + x
  if st.index < numRx then
    let v := values.getD st.index 0
    let ndData :=
      if iteration = 0 then Function.update st.ndData flatIdx v
      else Function.update st.ndData flatIdx (st.ndData flatIdx + v)
    let volume :=
      if iteration = 0 then Function.update st.volume flatIdx v
      else Function.update st.volume flatIdx (st.volume flatIdx + v)
    let spectrum := Function.update st.spectrum x (st.spectrum x + v)
    { volume := volume, ndData := ndData, spectrum := spectrum,
      index := st.index + 1, accesses := st.accesses ++ [st.index] }
  else st

/-- The 3-D storage loop: `for z { for y { for x ... } }`
(kreios.cpp lines 701-720). -/
def store3D (S V N iteration numRx cur readEnd : ℕ) (values : List ℚ) (st : Dist3) : Dist3 :=
  (List.range N).foldl
    (fun st z =>
      (List.range V).foldl
        (fun st y =>
          (List.range' cur (readEnd - cur)).foldl (store3DStep S V iteration numRx values z y) st)
        st)
    st

/-!
## Session setup

Embedding of the per-session setup of `Kreios::kreiosTask`
(kreios.cpp lines 416-553): read the dimension parameters, clear, define
the spectrum for the run mode, validate, apply the SFAT sample-count
override, and size the buffers.
-/

/-- Clamp of the dimension parameters: `if (x < 1) x = 1;`
(kreios.cpp lines 430 and 434). -/
def clampPos (v : ℤ) : ℕ := if v < 1 then 1 else v.toNat

/-- The SFAT local sample count:
`(int)floor(((end - start) / width) + 0.5) + 1` (kreios.cpp line 480),
with doubles modelled as rationals. -/
def sfatSamples (startE endE width : ℚ) : ℤ :=
  ⌊(endE - startE) / width + 1 / 2⌋ + 1

/-- Outcome of the buffer-allocation block (kreios.cpp lines 508-548).
Sizes are element counts of the `malloc`ed double buffers; `nbytes`
is the published `NDArraySize`. -/
structure AllocResult where
  ndims : ℕ
  dims : List ℤ
  spectrumSize : ℤ
  imageSize : Option ℤ
  volumeSize : Option ℤ
  ndArraySizeX : ℤ
  ndArraySizeY : Option ℤ
  nbytes : ℤ
  deriving DecidableEq

/-- The allocation block (kreios.cpp lines 508-548): spectrum is always
allocated with `energyChannels` doubles; a 2-D image iff
`nonEnergyChannels > 1 && numSlices == 1`; a 3-D volume iff
`nonEnergyChannels > 1 && numSlices > 1`; otherwise 1-D.
`NDArraySizeX` is always set to `energyChannels`, `NDArraySizeY` to
`nonEnergyChannels` only when `ndims >= 2`, and
`nbytes = dims[0] * ... * dims[ndims-1] * sizeof(double)`. -/
def allocBuffers (S : ℤ) (V N : ℕ) : AllocResult :=
  if 1 < V ∧ N = 1 then
    { ndims := 2, dims := [S, (V : ℤ)], spectrumSize := S,
      imageSize := some ((V : ℤ) * S), volumeSize := none,
      ndArraySizeX := S, ndArraySizeY := some (V : ℤ), nbytes := S * (V : ℤ) * 8 }
  else if 1 < V ∧ 1 < N then
    { ndims := 3, dims := [S, (V : ℤ), (N : ℤ)], spectrumSize := S,
      imageSize := none, volumeSize := some ((N : ℤ) * S * (V : ℤ)),
      ndArraySizeX := S, ndArraySizeY := some (V : ℤ),
      nbytes := S * (V : ℤ) * (N : ℤ) * 8 }
  else
    { ndims := 1, dims := [S], spectrumSize := S,
      imageSize := none, volumeSize := none,
      ndArraySizeX := S, ndArraySizeY := none, nbytes := S * 8 }

/-- Scalar parameters read by the worker at session start. -/
structure Scalars where
  startEnergy : ℚ
  endEnergy : ℚ
  stepWidth : ℚ
  valuesPerSample : ℤ
  numSlices : ℤ

/-- Environment replies consumed by the setup phase. -/
structure SetupEnv where
  /-- status of `getAnalyserParameter("NumNonEnergyChannels", ...)` (line 423) -/
  getParamOk : Bool
  /-- status of the `DefineSpectrum<mode>` exchange -/
  defineOk : Bool
  /-- status of the `ValidateSpectrum` exchange -/
  validateOk : Bool
  /-- the `Samples` integer parsed from the `ValidateSpectrum` reply -/
  validateSamples : ℤ

/-- The `DefineSpectrum` command selected by the `switch (runMode)`
(kreios.cpp lines 442-461); `none` models the `default:` case, which only
logs and leaves `status` untouched. -/
def defineCmdOf (runMode : ℤ) : Option Cmd :=
  if runMode = 0 then some Cmd.defineFAT
  else if runMode = 1 then some Cmd.defineSFAT
  else if runMode = 2 then some Cmd.defineFRR
  else if runMode = 3 then some Cmd.defineFE
  else if runMode = 4 then some Cmd.defineLVS
  else none

/-- Result of the setup phase. -/
structure SetupResult where
  status : Bool
  cmdLog : List Cmd
  energyChannels : ℤ
  samplesIterationParam : ℤ
  samplesTotalParam : ℤ
  vClamped : ℕ
  nClamped : ℕ
  alloc : Option AllocResult

/-- The setup phase of `Kreios::kreiosTask` (kreios.cpp lines 416-553).
`runMode` is the `KREIOSRunMode_` parameter, `iterations` the
`ADNumExposures` parameter.  `KREIOS_RUN_SFAT = 1`. -/
def runSetup (runMode : ℤ) (sc : Scalars) (iterations : ℤ) (env : SetupEnv) : SetupResult :=
  let V := clampPos sc.valuesPerSample
  let N := clampPos sc.numSlices
  -- status = getAnalyserParameter("NumNonEnergyChannels", ...)  (line 423)
  let status := env.getParamOk
  let log : List Cmd := [Cmd.getValue]
  -- if (status == asynSuccess) { ClearSpectrum; switch (runMode) ... }  (lines 437-462)
  let (status, log) :=
    if status then
      match defineCmdOf runMode with
      | some c => (env.defineOk, log ++ [Cmd.clearSpectrum, c])
      | none => (status, log ++ [Cmd.clearSpectrum])
    else (status, log)
  -- if (status == asynSuccess) { status = validateSpectrum(); }  (lines 464-467)
  let (status, log, samplesIter) :=
    if status then (env.validateOk, log ++ [Cmd.validateSpectrum], env.validateSamples)
    else (status, log, 0)
  -- if (status == asynSuccess) { ... sizing ... }  (lines 469-552)
  if status then
    let energyChannels := samplesIter
    let (energyChannels, samplesIter) :=
      if runMode = 1 then
        let e := sfatSamples sc.startEnergy sc.endEnergy sc.stepWidth
        (e, e)
      else (energyChannels, samplesIter)
    { status := true, cmdLog := log, energyChannels := energyChannels,
      samplesIterationParam := samplesIter,
      samplesTotalParam := energyChannels * iterations,
      vClamped := V, nClamped := N, alloc := some (allocBuffers energyChannels V N) }
  else
    { status := false, cmdLog := log, energyChannels := 0,
      samplesIterationParam := 0, samplesTotalParam := 0,
      vClamped := V, nClamped := N, alloc := none }

/-!
## Acquisition loop

Embedding of the iteration/polling loops of `Kreios::kreiosTask`
(kreios.cpp lines 561-806).  Each pass of the inner polling loop consumes
one `PollEvent` from the environment; the event carries everything the
server (and the user thread, for the `ADAcquire` parameter) supplies
during that pass.
-/

/-- One pass of the polling loop, as supplied by the environment. -/
structure PollEvent where
  /-- return status of `sendSimpleCommand(KREIOS_CMD_GET_STATUS, &data)` (line 621) -/
  statusOk : Bool
  /-- whether the reply map contains a `Code` key (line 622) -/
  hasErrorCode : Bool
  /-- `data["ControllerState"]` from the reply -/
  ctrlState : String
  /-- `NumberOfAcquiredPoints` when present and parsable (line 628) -/
  numPoints : Option ℤ
  /-- content of the `values` vector after `readAcquisitionData` (line 650) -/
  values : List ℚ
  /-- a user write to the `ADAcquire` parameter arriving before line 764 -/
  userWrite : Option Bool

/-- Worker-side state of one acquisition session. `shortRead` and
`postShortReads` are ghost fields: `shortRead` records that the
too-few-data branch (lines 658-666) ran, `postShortReads` counts
`GetAcquisitionData` requests issued after it, and `iterEndSpectrum`
snapshots the spectrum accumulator at the end of each iteration. -/
structure AcqState where
  status : Bool
  acquire : Bool
  adAcquireParam : Bool
  adStatus : ADStat
  statusMsg : String
  ctrlState : String
  currentDataPoint : ℕ
  numDataPoints : ℤ
  iteration : ℕ
  spectrum : ℕ → ℚ
  image : ℕ → ℚ
  volume : ℕ → ℚ
  ndData : ℕ → ℚ
  cmdLog : List Cmd
  shortRead : Bool
  postShortReads : ℕ
  iterEndSpectrum : List (ℕ → ℚ)

/-- The inner-loop condition (kreios.cpp lines 611-614):
`acquire && status == asynSuccess && (((ControllerState != "finished") ||
(currentDataPoint < energyChannels)) && (ControllerState != "aborted") &&
(ControllerState != "error"))`. -/
def innerGuard (S : ℕ) (st : AcqState) : Bool :=
  st.acquire && st.status &&
    ((!(st.ctrlState == "finished") || decide (st.currentDataPoint < S)) &&
      !(st.ctrlState == "aborted") && !(st.ctrlState == "error"))

/-- Dispatch of the received chunk to the storage loops according to
`ndims` (kreios.cpp lines 668-721). -/
def distributeChunk (ndims S V N : ℕ) (cur readEnd : ℕ) (values : List ℚ) (st : AcqState) :
    AcqState :=
  match ndims with
  | 1 =>
      let r := store1D st.iteration cur readEnd values
        { spectrum := st.spectrum, ndData := st.ndData, index := 0, accesses := [] }
      { st with spectrum := r.spectrum, ndData := r.ndData }
  | 2 =>
      let r := store2D S V st.iteration cur readEnd values
        { image := st.image, ndData := st.ndData, spectrum := st.spectrum,
          index := 0, accesses := [] }
      { st with image := r.image, ndData := r.ndData, spectrum := r.spectrum }
  | 3 =>
      let r := store3D S V N st.iteration values.length cur readEnd values
        { volume := st.volume, ndData := st.ndData, spectrum := st.spectrum,
          index := 0, accesses := [] }
      { st with volume := r.volume, ndData := r.ndData, spectrum := r.spectrum }
  | _ => st

/-- Tail of the polling-loop body (kreios.cpp lines 751-771): re-read the
`ADAcquire` parameter (after any user write) and, when the user has
cleared it, issue `Abort` and mark the session aborted.  The pure
progress-percentage parameters are not tracked. -/
def pollTail (e : PollEvent) (st : AcqState) : AcqState :=
  let param := e.userWrite.getD st.adAcquireParam
  let st := { st with adAcquireParam := param, acquire := param }
  if st.acquire then st
  else
    { st with cmdLog := st.cmdLog ++ [Cmd.abort], adStatus := ADStat.aborted,
              statusMsg := "Acquisition aborted" }

/-- Body of the inner polling loop (kreios.cpp lines 616-771). -/
def pollBody (S V N ndims : ℕ) (e : PollEvent) (st : AcqState) : AcqState :=
  -- status = sendSimpleCommand(KREIOS_CMD_GET_STATUS, &data)  (line 621)
  let st := { st with status := e.statusOk, cmdLog := st.cmdLog ++ [Cmd.getStatus],
                      ctrlState := if e.hasErrorCode then "error" else e.ctrlState,
                      numDataPoints := e.numPoints.getD st.numDataPoints }
  if (st.currentDataPoint : ℤ) < st.numDataPoints then
    -- first-data block (lines 631-642): status message and OrdinateRange read
    let st :=
      if st.currentDataPoint = 0 then
        { st with adStatus := ADStat.acquiring, statusMsg := "Acquiring data...",
                  cmdLog := st.cmdLog ++ [Cmd.getDataInfo] }
      else st
    -- read-size cap (lines 645-648), maxValues = 1000000
    let readEnd : ℕ :=
      if (st.numDataPoints - (st.currentDataPoint : ℤ)) * (V : ℤ) > 1000000 then
        st.currentDataPoint + 1000000 / V
      else st.numDataPoints.toNat
    -- readAcquisitionData(currentDataPoint, readEndDataPoint - 1, values)  (line 650)
    let st := { st with cmdLog := st.cmdLog ++ [Cmd.getData st.currentDataPoint (readEnd - 1)],
                        postShortReads :=
                          st.postShortReads + (if st.shortRead then 1 else 0) }
    let values := e.values
    if values.length < (readEnd - st.currentDataPoint) * V then
      -- too few data points (lines 658-666)
      { st with cmdLog := st.cmdLog ++ [Cmd.abort], status := false,
                adAcquireParam := false, adStatus := ADStat.error,
                statusMsg := "KREIOS Receive Error", shortRead := true }
    else
      let st := distributeChunk ndims S V N st.currentDataPoint readEnd values st
      pollTail e { st with currentDataPoint := readEnd }
  else
    pollTail e st

/-- The inner polling loop (kreios.cpp lines 611-772): keep executing the
body while the guard holds, one environment event per pass.  A run is cut
short when the supplied event list ends. -/
def innerLoop (S V N ndims : ℕ) : List PollEvent → AcqState → AcqState
  | [], st => st
  | e :: rest, st =>
      if innerGuard S st then innerLoop S V N ndims rest (pollBody S V N ndims e st) else st

/-- Environment for one iteration of the outer loop. -/
structure IterEnv where
  /-- `data["ControllerState"]` after the pre-loop `GetAcquisitionStatus` (line 607) -/
  initCtrl : String
  /-- events for the polling loop passes of this iteration -/
  polls : List PollEvent

/-- One pass of the outer iteration loop (kreios.cpp lines 601-774):
clear the server, start an acquisition, seed the status map (line 607),
run the polling loop, then `iteration++` (with a ghost snapshot of the
spectrum accumulator). -/
def outerIterStep (S V N ndims : ℕ) (env : ℕ → IterEnv) (st : AcqState) : AcqState :=
  let e := env st.iteration
  let st := { st with
    cmdLog := st.cmdLog ++ [Cmd.clearSpectrum, Cmd.start, Cmd.getStatus],
    currentDataPoint := 0, numDataPoints := 0, ctrlState := e.initCtrl }
  let st := innerLoop S V N ndims e.polls st
  { st with iteration := st.iteration + 1,
            iterEndSpectrum := st.iterEndSpectrum ++ [st.spectrum] }

/-- The outer iteration loop (kreios.cpp lines 599-775):
`while ((iteration < iterations) && (acquire == 1))`. -/
def outerLoop (S V N ndims : ℕ) (env : ℕ → IterEnv) : ℕ → AcqState → AcqState
  | 0, st => st
  | remaining + 1, st =>
      if st.acquire then
        outerLoop S V N ndims env remaining (outerIterStep S V N ndims env st)
      else st

/-- One complete session of `Kreios::kreiosTask` (kreios.cpp lines
416-806): setup, then either the error exit (lines 556-560) or the
acquisition loop followed by completion handling (lines 561-805).  Buffer
contents start as the zero function (lines 563-575 zero the allocated
ranges).  `iterations` is the `ADNumExposures` value. -/
def runSession (runMode : ℤ) (sc : Scalars) (iterations : ℤ) (senv : SetupEnv)
    (env : ℕ → IterEnv) : AcqState :=
  let setup := runSetup runMode sc iterations senv
  match setup.alloc with
  | none =>
      -- if (status != asynSuccess) { acquire = 0; ... ADStatusError; }  (lines 556-560)
      { status := false, acquire := false, adAcquireParam := false,
        adStatus := ADStat.error, statusMsg := "", ctrlState := "",
        currentDataPoint := 0, numDataPoints := 0, iteration := 0,
        spectrum := fun _ => 0, image := fun _ => 0, volume := fun _ => 0,
        ndData := fun _ => 0, cmdLog := setup.cmdLog,
        shortRead := false, postShortReads := 0, iterEndSpectrum := [] }
  | some a =>
      let S := setup.energyChannels.toNat
      let st0 : AcqState :=
        { status := true, acquire := true, adAcquireParam := true,
          adStatus := ADStat.initializing, statusMsg := "Executing pre-scan...",
          ctrlState := "", currentDataPoint := 0, numDataPoints := 0, iteration := 0,
          spectrum := fun _ => 0, image := fun _ => 0, volume := fun _ => 0,
          ndData := fun _ => 0, cmdLog := setup.cmdLog,
          shortRead := false, postShortReads := 0, iterEndSpectrum := [] }
      let st := outerLoop S setup.vClamped setup.nClamped a.ndims env iterations.toNat st0
      -- completion (lines 778-797)
      let st :=
        if st.acquire && st.status then
          { st with adStatus := ADStat.idle, statusMsg := "Acquisition complete" }
        else st
      -- setIntegerParam(ADAcquire, 0)  (line 804)
      { st with adAcquireParam := false }

/-!
## The control-thread write handler

Embedding of `Kreios::writeInt32` (kreios.cpp lines 813-869).  Parameter
identities are abstracted to the cases its dispatch distinguishes.
-/

/-- The cases `Kreios::writeInt32` distinguishes on `function`. -/
inductive PFunc where
  | adAcquire
  | kreiosConnect
  | pauseAcq
  | otherKreios
  | baseParam
  deriving DecidableEq

/-- The integer parameters touched by `Kreios::writeInt32`, one cell per
`PFunc` case. -/
structure WState where
  adAcquire : ℤ
  kreiosConnect : ℤ
  pauseAcq : ℤ
  otherKreios : ℤ
  baseParam : ℤ
  adStatus : ADStat
  statusMsg : String

/-- `setIntegerParam(function, value)` (kreios.cpp line 836). -/
def setParam (f : PFunc) (v : ℤ) (st : WState) : WState :=
  match f with
  | PFunc.adAcquire => { st with adAcquire := v }
  | PFunc.kreiosConnect => { st with kreiosConnect := v }
  | PFunc.pauseAcq => { st with pauseAcq := v }
  | PFunc.otherKreios => { st with otherKreios := v }
  | PFunc.baseParam => { st with baseParam := v }

/-- Outcome of one `writeInt32` call: the new parameter store, whether the
start or stop epicsEvent was signalled, and the Prodigy requests triggered
by the call. -/
structure WResult where
  st : WState
  startSignaled : Bool
  stopSignaled : Bool
  cmds : List Cmd

/-- `Kreios::writeInt32` (kreios.cpp lines 813-869).  `acquiring` is read
once at entry; the status-message block runs before the parameter is
stored; the dispatch signals the start/stop events only for `ADAcquire`,
connects/disconnects only for `KREIOSConnect_`, and forwards only
`function < FIRST_KREIOS_PARAM` to the `ADDriver` base (which issues no
Prodigy request).  In particular no branch examines `KREIOSPauseAcq_`. -/
def writeInt32Run (f : PFunc) (value : ℤ) (st : WState) : WResult :=
  let acquiring := st.adAcquire
  let st :=
    if f = PFunc.adAcquire then
      if value ≠ 0 ∧ acquiring = 0 then { st with statusMsg := "Acquiring data" }
      else if value = 0 ∧ acquiring ≠ 0 then
        { st with statusMsg := "Acquisition stopped", adStatus := ADStat.aborted }
      else st
    else st
  let st := setParam f value st
  if f = PFunc.adAcquire then
    { st := st, startSignaled := decide (value ≠ 0) && decide (acquiring = 0),
      stopSignaled := decide (value = 0) && decide (acquiring ≠ 0), cmds := [] }
  else if f = PFunc.kreiosConnect then
    { st := st, startSignaled := false, stopSignaled := false, cmds := [Cmd.connectRelated] }
  else
    { st := st, startSignaled := false, stopSignaled := false, cmds := [] }

/-!
## Spec-side definitions

Definitions taken from the specification words, kept separate from the
code embedding so the two can be compared.
-/

/-- Modelled from the spec: the flat-index contract cell for
(slice n, sample s, pixel p) is `n*S*V + s*V + p` (spec section 3). -/
def specFlatIndex (n s p S V : ℕ) : ℕ := n * (S * V) + s * V + p

/-- Modelled from the spec: the sample coordinate of the value at flat
offset `i` within an iteration, `(i mod (S*V)) div V` (spec section 3). -/
def specSampleOf (i S V : ℕ) : ℕ := i % (S * V) / V

/-- Modelled from the spec: the pixel coordinate of the value at flat
offset `i`, `i mod V` (spec section 3). -/
def specPixelOf (i V : ℕ) : ℕ := i % V

/-!
## Theorems
-/

/-- C1: the flat-index contract fails on the code.  Failing input: a 2-D
session with S = 2 energy samples and V = 2 pixels whose first chunk
covers sample range [0,1) (flat offset F = 0) with wire values [5, 7].
Per the contract the value at flat offset 1 (sample 0, pixel 1) must be
stored in image cell `specFlatIndex 0 0 1 = 0*S*V + 0*V + 1 = 1`; the code
(kreios.cpp lines 683-696) instead leaves cell 1 untouched and writes that
value to cell `y*S + x = 1*2 + 0 = 2`. -/
theorem c1_flat_index_divergence :
    specFlatIndex 0 (specSampleOf 1 2 2) (specPixelOf 1 2) 2 2 = 1 ∧
    (store2D 2 2 0 0 1 [5, 7]
      { image := fun _ => 0, ndData := fun _ => 0, spectrum := fun _ => 0,
        index := 0, accesses := [] }).image 1 = 0 ∧
    (store2D 2 2 0 0 1 [5, 7]
      { image := fun _ => 0, ndData := fun _ => 0, spectrum := fun _ => 0,
        index := 0, accesses := [] }).image 2 = 7 := by
  refine ⟨rfl, ?_, ?_⟩ <;> decide

/-- C2: the driver does not implement the documented request framing.  The
bytes `Kreios::asynWriteRead` puts on the wire for the `Start` command are
exactly `Start\n`, which is not a `?HHHH`-framed Prodigy request, and
`Kreios::commandResponse` accepts a reply line carrying an arbitrary
request id (here `!ABCD OK`) as a successful answer instead of comparing
or discarding ids. -/
theorem c2_requests_unframed :
    kreiosRequestLine "Start" = "Start\n" ∧
    isProdigyFramedRequest (kreiosRequestLine "Start") = false ∧
    (parseResponse "!ABCD OK").1 = true ∧ (parseResponse "!ABCD OK").2 = [] := by
  refine ⟨rfl, ?_, ?_, ?_⟩ <;> decide

/-- C3: in SFAT mode (`runMode = KREIOS_RUN_SFAT = 1`), after a successful
define and validate the worker overrides the samples-per-iteration with
`floor((EndEnergy - StartEnergy)/StepWidth + 0.5) + 1` computed from the
scalar parameters — for every value of the `Samples` field of the server's
reply — and the session's buffer sizing (allocation result, per-iteration
and total sample parameters) is computed from the overridden value. -/
theorem c3_sfat_override (sc : Scalars) (iterations : ℤ) (senv : SetupEnv)
    (h1 : senv.getParamOk = true) (h2 : senv.defineOk = true)
    (h3 : senv.validateOk = true) :
    (runSetup 1 sc iterations senv).energyChannels =
        sfatSamples sc.startEnergy sc.endEnergy sc.stepWidth ∧
    (runSetup 1 sc iterations senv).samplesIterationParam =
        sfatSamples sc.startEnergy sc.endEnergy sc.stepWidth ∧
    (runSetup 1 sc iterations senv).samplesTotalParam =
        sfatSamples sc.startEnergy sc.endEnergy sc.stepWidth * iterations ∧
    (runSetup 1 sc iterations senv).alloc =
        some (allocBuffers (sfatSamples sc.startEnergy sc.endEnergy sc.stepWidth)
          (clampPos sc.valuesPerSample) (clampPos sc.numSlices)) := by
  simp [runSetup, defineCmdOf, h1, h2, h3]

/-- Witness for C3 at the spec's concrete example: StartEnergy 100,
EndEnergy 110, StepWidth 1, server reply Samples = 7; the override yields
`floor((110-100)/1 + 0.5) + 1 = 11`. -/
theorem c3_sfat_override_witness :
    (runSetup 1 ⟨100, 110, 1, 1, 1⟩ 1 ⟨true, true, true, 7⟩).energyChannels = 11 := by
  have h := (c3_sfat_override ⟨100, 110, 1, 1, 1⟩ 1 ⟨true, true, true, 7⟩ rfl rfl rfl).1
  rw [h]; norm_num [sfatSamples]

/-- C5: the allocation block always sizes the spectrum accumulator as S
doubles, allocates the image accumulator (of S*V doubles) exactly when
V > 1 and N = 1, the volume accumulator (of S*V*N doubles) exactly when
V > 1 and N > 1, publishes ndims 1, 2 or 3 with dims (S), (S,V), (S,V,N)
respectively, and sets NDArraySizeX = S always and NDArraySizeY = V when
ndims is at least 2. -/
theorem c5_accumulator_allocation (S : ℤ) (V N : ℕ) (hV : 1 ≤ V) (hN : 1 ≤ N) :
    (allocBuffers S V N).spectrumSize = S ∧
    ((allocBuffers S V N).imageSize =
      if 1 < V ∧ N = 1 then some ((V : ℤ) * S) else none) ∧
    ((allocBuffers S V N).volumeSize =
      if 1 < V ∧ 1 < N then some ((N : ℤ) * S * (V : ℤ)) else none) ∧
    (1 < V ∧ N = 1 →
      (allocBuffers S V N).ndims = 2 ∧ (allocBuffers S V N).dims = [S, (V : ℤ)]) ∧
    (1 < V ∧ 1 < N →
      (allocBuffers S V N).ndims = 3 ∧
        (allocBuffers S V N).dims = [S, (V : ℤ), (N : ℤ)]) ∧
    (V = 1 → (allocBuffers S V N).ndims = 1 ∧ (allocBuffers S V N).dims = [S]) ∧
    (allocBuffers S V N).ndArraySizeX = S ∧
    (2 ≤ (allocBuffers S V N).ndims → (allocBuffers S V N).ndArraySizeY = some (V : ℤ)) := by
  by_cases hv : 1 < V
  · by_cases hn : N = 1
    · simp [allocBuffers, hv, hn]; omega
    · have hn2 : 1 < N := by omega
      simp [allocBuffers, hv, hn, hn2]; omega
  · have hv1 : V = 1 := by omega
    simp [allocBuffers, hv1]

/-- Witness for C5 at S = 5, V = 2, N = 1 (a 2-D session). -/
theorem c5_accumulator_allocation_witness :
    (allocBuffers 5 2 1).spectrumSize = 5 ∧
    (allocBuffers 5 2 1).imageSize = if 1 < 2 ∧ 1 = 1 then some ((2 : ℤ) * 5) else none :=
  ⟨(c5_accumulator_allocation 5 2 1 (by decide) (by decide)).1,
   (c5_accumulator_allocation 5 2 1 (by decide) (by decide)).2.1⟩

/-!
### Access-trace lemmas for the storage loops
-/

/-- A loop body whose every pass advances `index` by `len` and reads the
`len` consecutive indices starting at the entry `index` yields, over a
whole fold, the consecutive indices starting at the initial `index`. -/
theorem foldl_block_trace {σ α : Type} (f : σ → α → σ) (idx : σ → ℕ) (acc : σ → List ℕ)
    (len : ℕ)
    (hf : ∀ st a, idx (f st a) = idx st + len ∧
      acc (f st a) = acc st ++ List.range' (idx st) len) :
    ∀ (l : List α) (st : σ),
      idx (l.foldl f st) = idx st + l.length * len ∧
      acc (l.foldl f st) = acc st ++ List.range' (idx st) (l.length * len) := by
  intro l
  induction l with
  | nil => intro st; simp
  | cons a t ih =>
      intro st
      obtain ⟨h1, h2⟩ := hf st a
      obtain ⟨ih1, ih2⟩ := ih (f st a)
      have hlen : t.length * len + len = (a :: t).length * len := by
        simp [List.length_cons]; ring
      constructor
      · rw [List.foldl_cons, ih1, h1, ← hlen]; omega
      · rw [List.foldl_cons, ih2, h2, h1, List.append_assoc, List.range'_append_1, hlen]

theorem store1DStep_trace (iteration : ℕ) (values : List ℚ) (st : Dist1) (x : ℕ) :
    (store1DStep iteration values st x).index = st.index + 1 ∧
    (store1DStep iteration values st x).accesses =
      st.accesses ++ List.range' st.index 1 := by
  simp [store1DStep]

theorem store1D_trace (iteration cur readEnd : ℕ) (values : List ℚ) (st : Dist1) :
    (store1D iteration cur readEnd values st).index = st.index + (readEnd - cur) ∧
    (store1D iteration cur readEnd values st).accesses =
      st.accesses ++ List.range' st.index (readEnd - cur) := by
  have h := foldl_block_trace (store1DStep iteration values) Dist1.index Dist1.accesses 1
    (store1DStep_trace iteration values) (List.range' cur (readEnd - cur)) st
  simpa [store1D] using h

theorem store2DStep_trace (S iteration : ℕ) (values : List ℚ) (y : ℕ) (st : Dist2) (x : ℕ) :
    (store2DStep S iteration values y st x).index = st.index + 1 ∧
    (store2DStep S iteration values y st x).accesses =
      st.accesses ++ List.range' st.index 1 := by
  simp [store2DStep]

theorem store2D_row_trace (S iteration cur readEnd : ℕ) (values : List ℚ) (st : Dist2)
    (y : ℕ) :
    ((List.range' cur (readEnd - cur)).foldl (store2DStep S iteration values y) st).index
        = st.index + (readEnd - cur) ∧
    ((List.range' cur (readEnd - cur)).foldl (store2DStep S iteration values y) st).accesses
        = st.accesses ++ List.range' st.index (readEnd - cur) := by
  have h := foldl_block_trace (store2DStep S iteration values y) Dist2.index Dist2.accesses 1
    (store2DStep_trace S iteration values y) (List.range' cur (readEnd - cur)) st
  simpa using h

theorem store2D_trace (S V iteration cur readEnd : ℕ) (values : List ℚ) (st : Dist2) :
    (store2D S V iteration cur readEnd values st).index =
      st.index + V * (readEnd - cur) ∧
    (store2D S V iteration cur readEnd values st).accesses =
      st.accesses ++ List.range' st.index (V * (readEnd - cur)) := by
  have h := foldl_block_trace
    (fun st y => (List.range' cur (readEnd - cur)).foldl (store2DStep S iteration values y) st)
    Dist2.index Dist2.accesses (readEnd - cur)
    (fun st y => store2D_row_trace S iteration cur readEnd values st y)
    (List.range V) st
  simpa [store2D] using h

/-- Folds preserve an invariant preserved by the body. -/
theorem foldl_preserve {σ α : Type} (P : σ → Prop) (f : σ → α → σ)
    (hf : ∀ st a, P st → P (f st a)) :
    ∀ (l : List α) (st : σ), P st → P (l.foldl f st) := by
  intro l
  induction l with
  | nil => intro st h; simpa using h
  | cons a t ih => intro st h; rw [List.foldl_cons]; exact ih (f st a) (hf st a h)

theorem store3D_accesses_bounded (S V N iteration numRx cur readEnd : ℕ)
    (values : List ℚ) (st : Dist3)
    (h0 : ∀ i ∈ st.accesses, i < numRx) :
    ∀ i ∈ (store3D S V N iteration numRx cur readEnd values st).accesses, i < numRx := by
  have hstep : ∀ (z y : ℕ) (st : Dist3) (x : ℕ), (∀ i ∈ st.accesses, i < numRx) →
      ∀ i ∈ (store3DStep S V iteration numRx values z y st x).accesses, i < numRx := by
    intro z y st x h i hi
    by_cases hidx : st.index < numRx
    · simp only [store3DStep, if_pos hidx] at hi
      rcases List.mem_append.mp hi with h1 | h1
      · exact h i h1
      · simpa using List.mem_singleton.mp h1 ▸ hidx
    · simp only [store3DStep, if_neg hidx] at hi
      exact h i hi
  refine foldl_preserve (fun st => ∀ i ∈ st.accesses, i < numRx) _ ?_ _ st h0
  intro st z h
  refine foldl_preserve (fun st => ∀ i ∈ st.accesses, i < numRx) _ ?_ _ st h
  intro st y h
  exact foldl_preserve (fun st => ∀ i ∈ st.accesses, i < numRx) _ (hstep z y) _ st h

/-- C10: over one received chunk for sample range [cur, readEnd), the 1-D
loop reads exactly `readEnd - cur` values (and in a 1-D session V = 1, as
the allocation shows, so this is `(readEnd - cur) * V`), the 2-D loop
reads exactly `(readEnd - cur) * V` values, both within the
`(readEnd - cur) * V` values the short-read check guarantees to be
present, and every read of the 3-D loop is kept below the received count
by its `index < numRxDataPoints` guard; hence no `values[index]` access
has `index >= values.size()`. -/
theorem c10_values_access_in_bounds (S V N iteration cur readEnd : ℕ) (values : List ℚ)
    (sp nd im vol : ℕ → ℚ) (hV : 1 ≤ V) (hN : 1 ≤ N)
    (hlen : (readEnd - cur) * V ≤ values.length) :
    ((allocBuffers (S : ℤ) V N).ndims = 1 → V = 1) ∧
    (store1D iteration cur readEnd values
      { spectrum := sp, ndData := nd, index := 0, accesses := [] }).accesses.length
        = readEnd - cur ∧
    (∀ i ∈ (store1D iteration cur readEnd values
      { spectrum := sp, ndData := nd, index := 0, accesses := [] }).accesses,
        i < values.length) ∧
    (store2D S V iteration cur readEnd values
      { image := im, ndData := nd, spectrum := sp, index := 0, accesses := [] }).accesses.length
        = (readEnd - cur) * V ∧
    (∀ i ∈ (store2D S V iteration cur readEnd values
      { image := im, ndData := nd, spectrum := sp, index := 0, accesses := [] }).accesses,
        i < values.length) ∧
    (∀ i ∈ (store3D S V N iteration values.length cur readEnd values
      { volume := vol, ndData := nd, spectrum := sp, index := 0, accesses := [] }).accesses,
        i < values.length) := by
  have hmule : readEnd - cur ≤ (readEnd - cur) * V :=
    Nat.le_mul_of_pos_right _ (by omega)
  have h1 := store1D_trace iteration cur readEnd values
    { spectrum := sp, ndData := nd, index := 0, accesses := [] }
  have h2 := store2D_trace S V iteration cur readEnd values
    { image := im, ndData := nd, spectrum := sp, index := 0, accesses := [] }
  refine ⟨?_, ?_, ?_, ?_, ?_, ?_⟩
  · intro hnd
    by_cases hv : 1 < V
    · by_cases hn : N = 1
      · simp [allocBuffers, hv, hn] at hnd
      · have hn2 : 1 < N := by omega
        simp [allocBuffers, hv, hn, hn2] at hnd
    · omega
  · rw [h1.2]; simp
  · intro i hi
    rw [h1.2] at hi
    simp only [List.nil_append, List.mem_range'_1] at hi
    omega
  · rw [h2.2]; simp [Nat.mul_comm]
  · intro i hi
    rw [h2.2] at hi
    simp only [List.nil_append, List.mem_range'_1] at hi
    have : V * (readEnd - cur) = (readEnd - cur) * V := Nat.mul_comm _ _
    omega
  · exact store3D_accesses_bounded S V N iteration values.length cur readEnd values
      _ (by simp)

/-- Witness for C10 at a concrete chunk: S = 2, V = 2, N = 1, chunk for
sample range [0, 1) with two received values. -/
theorem c10_values_access_in_bounds_witness :
    (store2D 2 2 0 0 1 [5, 7]
      { image := fun _ => 0, ndData := fun _ => 0, spectrum := fun _ => 0,
        index := 0, accesses := [] }).accesses.length = (1 - 0) * 2 :=
  (c10_values_access_in_bounds 2 2 1 0 0 1 [5, 7] (fun _ => 0) (fun _ => 0) (fun _ => 0)
    (fun _ => 0) (by decide) (by decide) (by decide)).2.2.2.1

/-- C8: no pause support exists in the code.  A user write of any value to
the `KREIOSPauseAcq_` parameter runs `Kreios::writeInt32`, which merely
stores the value: it sends no Prodigy request at all (in particular no
`Pause` or `Resume`), signals no worker event, and changes nothing else.
The claimed `pauseAcquisition()`/`resumeAcquisition()` behaviour has no
counterpart in the driver. -/
theorem c8_pause_write_sends_nothing (st : WState) (value : ℤ) :
    (writeInt32Run PFunc.pauseAcq value st).cmds = [] ∧
    (writeInt32Run PFunc.pauseAcq value st).startSignaled = false ∧
    (writeInt32Run PFunc.pauseAcq value st).stopSignaled = false ∧
    (writeInt32Run PFunc.pauseAcq value st).st = { st with pauseAcq := value } := by
  simp [writeInt32Run, setParam]

/-- C9: every session — clean completion, error exit, or user abort —
ends with the `ADAcquire` parameter reset to 0; and `Kreios::writeInt32`
signals the start event exactly when a nonzero value is written while the
`ADAcquire` parameter is 0, so a write of acquire=1 while the parameter is
still 1 (an active session) signals nothing and a fresh write after the
reset is required to start the next session. -/
theorem c9_acquire_reset_and_fresh_start :
    (∀ (runMode : ℤ) (sc : Scalars) (iterations : ℤ) (senv : SetupEnv) (env : ℕ → IterEnv),
      (runSession runMode sc iterations senv env).adAcquireParam = false) ∧
    (∀ (st : WState) (value : ℤ),
      (writeInt32Run PFunc.adAcquire value st).startSignaled =
        (decide (value ≠ 0) && decide (st.adAcquire = 0))) := by
  constructor
  · intro runMode sc iterations senv env
    unfold runSession
    cases h : (runSetup runMode sc iterations senv).alloc <;> simp [h]
  · intro st value
    simp [writeInt32Run]

/-!
### Structural lemmas about the polling loop
-/

theorem distributeChunk_cmdLog (ndims S V N cur readEnd : ℕ) (values : List ℚ)
    (st : AcqState) :
    (distributeChunk ndims S V N cur readEnd values st).cmdLog = st.cmdLog := by
  unfold distributeChunk; split <;> rfl

theorem distributeChunk_status (ndims S V N cur readEnd : ℕ) (values : List ℚ)
    (st : AcqState) :
    (distributeChunk ndims S V N cur readEnd values st).status = st.status := by
  unfold distributeChunk; split <;> rfl

theorem distributeChunk_shortRead (ndims S V N cur readEnd : ℕ) (values : List ℚ)
    (st : AcqState) :
    (distributeChunk ndims S V N cur readEnd values st).shortRead = st.shortRead := by
  unfold distributeChunk; split <;> rfl

theorem distributeChunk_postShortReads (ndims S V N cur readEnd : ℕ) (values : List ℚ)
    (st : AcqState) :
    (distributeChunk ndims S V N cur readEnd values st).postShortReads = st.postShortReads := by
  unfold distributeChunk; split <;> rfl

theorem distributeChunk_adStatus (ndims S V N cur readEnd : ℕ) (values : List ℚ)
    (st : AcqState) :
    (distributeChunk ndims S V N cur readEnd values st).adStatus = st.adStatus := by
  unfold distributeChunk; split <;> rfl

theorem distributeChunk_statusMsg (ndims S V N cur readEnd : ℕ) (values : List ℚ)
    (st : AcqState) :
    (distributeChunk ndims S V N cur readEnd values st).statusMsg = st.statusMsg := by
  unfold distributeChunk; split <;> rfl

theorem pollTail_log_mono (e : PollEvent) (st : AcqState) :
    ∃ t, (pollTail e st).cmdLog = st.cmdLog ++ t := by
  simp only [pollTail]
  split
  · exact ⟨[], by simp⟩
  · exact ⟨[Cmd.abort], rfl⟩

theorem pollTail_status (e : PollEvent) (st : AcqState) :
    (pollTail e st).status = st.status := by
  simp only [pollTail]; split <;> rfl

theorem pollTail_shortRead (e : PollEvent) (st : AcqState) :
    (pollTail e st).shortRead = st.shortRead := by
  simp only [pollTail]; split <;> rfl

theorem pollTail_postShortReads (e : PollEvent) (st : AcqState) :
    (pollTail e st).postShortReads = st.postShortReads := by
  simp only [pollTail]; split <;> rfl

theorem pollBody_log_mono (S V N ndims : ℕ) (e : PollEvent) (st : AcqState) :
    ∃ t, (pollBody S V N ndims e st).cmdLog = st.cmdLog ++ t := by
  simp only [pollBody, pollTail]
  repeat' split
  all_goals exact ⟨_, by simp [distributeChunk_cmdLog, List.append_assoc] <;> rfl⟩

theorem innerLoop_log_mono (S V N ndims : ℕ) (evts : List PollEvent) (st : AcqState) :
    ∃ t, (innerLoop S V N ndims evts st).cmdLog = st.cmdLog ++ t := by
  induction evts generalizing st with
  | nil => exact ⟨[], by simp [innerLoop]⟩
  | cons e rest ih =>
      by_cases h : innerGuard S st = true
      · obtain ⟨t1, h1⟩ := pollBody_log_mono S V N ndims e st
        obtain ⟨t2, h2⟩ := ih (pollBody S V N ndims e st)
        exact ⟨t1 ++ t2, by simp [innerLoop, h, h2, h1, List.append_assoc]⟩
      · exact ⟨[], by simp [innerLoop, h]⟩

theorem outerIterStep_log_mono (S V N ndims : ℕ) (env : ℕ → IterEnv) (st : AcqState) :
    ∃ t, (outerIterStep S V N ndims env st).cmdLog = st.cmdLog ++ t := by
  obtain ⟨t1, h1⟩ := innerLoop_log_mono S V N ndims (env st.iteration).polls
    { st with
      cmdLog := st.cmdLog ++ [Cmd.clearSpectrum, Cmd.start, Cmd.getStatus],
      currentDataPoint := 0, numDataPoints := 0, ctrlState := (env st.iteration).initCtrl }
  exact ⟨[Cmd.clearSpectrum, Cmd.start, Cmd.getStatus] ++ t1,
    by simp [outerIterStep, h1, List.append_assoc]⟩

theorem outerLoop_log_mono (S V N ndims : ℕ) (env : ℕ → IterEnv) (n : ℕ) (st : AcqState) :
    ∃ t, (outerLoop S V N ndims env n st).cmdLog = st.cmdLog ++ t := by
  induction n generalizing st with
  | zero => exact ⟨[], by simp [outerLoop]⟩
  | succ n ih =>
      by_cases h : st.acquire = true
      · obtain ⟨t1, h1⟩ := outerIterStep_log_mono S V N ndims env st
        obtain ⟨t2, h2⟩ := ih (outerIterStep S V N ndims env st)
        exact ⟨t1 ++ t2, by simp [outerLoop, h, h2, h1, List.append_assoc]⟩
      · exact ⟨[], by simp [outerLoop, h]⟩

theorem defineCmdOf_valid (runMode : ℤ) (h0 : 0 ≤ runMode) (h4 : runMode ≤ 4) :
    ∃ c, defineCmdOf runMode = some c := by
  unfold defineCmdOf
  split_ifs <;> first | exact ⟨_, rfl⟩ | omega

theorem defineCmdOf_cases (runMode : ℤ) (c : Cmd) (h : defineCmdOf runMode = some c) :
    c = Cmd.defineFAT ∨ c = Cmd.defineSFAT ∨ c = Cmd.defineFRR ∨ c = Cmd.defineFE ∨
      c = Cmd.defineLVS := by
  unfold defineCmdOf at h
  split_ifs at h <;> simp_all

theorem runSetup_alloc_isSome (runMode : ℤ) (sc : Scalars) (iterations : ℤ)
    (senv : SetupEnv) (c : Cmd) (hm : defineCmdOf runMode = some c) :
    ((runSetup runMode sc iterations senv).alloc).isSome = true ↔
      senv.getParamOk = true ∧ senv.defineOk = true ∧ senv.validateOk = true := by
  rcases senv with ⟨g, d, v, smp⟩
  cases g <;> cases d <;> cases v <;> simp [runSetup, hm]

theorem runSetup_success_log (runMode : ℤ) (sc : Scalars) (iterations : ℤ)
    (senv : SetupEnv) (c : Cmd) (hm : defineCmdOf runMode = some c)
    (hg : senv.getParamOk = true) (hd : senv.defineOk = true)
    (hv : senv.validateOk = true) :
    (runSetup runMode sc iterations senv).cmdLog =
      [Cmd.getValue, Cmd.clearSpectrum, c, Cmd.validateSpectrum] := by
  rcases senv with ⟨g, d, v, smp⟩
  simp only at hg hd hv
  subst hg; subst hd; subst hv
  simp [runSetup, hm]

theorem runSetup_log_no_start (runMode : ℤ) (sc : Scalars) (iterations : ℤ)
    (senv : SetupEnv) :
    Cmd.start ∉ (runSetup runMode sc iterations senv).cmdLog := by
  rcases senv with ⟨g, d, v, smp⟩
  cases hc : defineCmdOf runMode with
  | none => cases g <;> cases d <;> cases v <;> simp [runSetup, hc]
  | some c =>
      rcases defineCmdOf_cases runMode c hc with rfl | rfl | rfl | rfl | rfl <;>
        cases g <;> cases d <;> cases v <;> simp [runSetup, hc]

theorem runSession_cmdLog_extends (runMode : ℤ) (sc : Scalars) (iterations : ℤ)
    (senv : SetupEnv) (env : ℕ → IterEnv) :
    ∃ t, (runSession runMode sc iterations senv env).cmdLog =
      (runSetup runMode sc iterations senv).cmdLog ++ t := by
  unfold runSession
  cases h : (runSetup runMode sc iterations senv).alloc with
  | none => exact ⟨[], by simp [h]⟩
  | some a =>
      obtain ⟨t, ht⟩ := outerLoop_log_mono
        (runSetup runMode sc iterations senv).energyChannels.toNat
        (runSetup runMode sc iterations senv).vClamped
        (runSetup runMode sc iterations senv).nClamped a.ndims env iterations.toNat
        { status := true, acquire := true, adAcquireParam := true,
          adStatus := ADStat.initializing, statusMsg := "Executing pre-scan...",
          ctrlState := "", currentDataPoint := 0, numDataPoints := 0, iteration := 0,
          spectrum := fun _ => 0, image := fun _ => 0, volume := fun _ => 0,
          ndData := fun _ => 0, cmdLog := (runSetup runMode sc iterations senv).cmdLog,
          shortRead := false, postShortReads := 0, iterEndSpectrum := [] }
      refine ⟨t, ?_⟩
      simp only [h]
      split <;> simpa using ht

theorem runSession_setup_failed (runMode : ℤ) (sc : Scalars) (iterations : ℤ)
    (senv : SetupEnv) (env : ℕ → IterEnv)
    (h : (runSetup runMode sc iterations senv).alloc = none) :
    (runSession runMode sc iterations senv env).adStatus = ADStat.error ∧
    (runSession runMode sc iterations senv env).cmdLog =
      (runSetup runMode sc iterations senv).cmdLog := by
  unfold runSession
  simp [h]

/-- C7 (amended): for a valid run mode (0..4), the worker issues `Start`
only in sessions whose `DefineSpectrum<mode>` and `ValidateSpectrum`
exchanges both succeeded — and then they appear, in order, before any
`Start` in the request log; if either exchange fails, the session ends in
state Error with no `Start` issued.  (The unamended claim fails for
invalid run modes, see the counterexample.) -/
theorem c7_start_needs_define_validate (runMode : ℤ) (sc : Scalars) (iterations : ℤ)
    (senv : SetupEnv) (env : ℕ → IterEnv) (h0 : 0 ≤ runMode) (h4 : runMode ≤ 4) :
    (Cmd.start ∈ (runSession runMode sc iterations senv env).cmdLog →
      senv.getParamOk = true ∧ senv.defineOk = true ∧ senv.validateOk = true ∧
      ∃ c t, defineCmdOf runMode = some c ∧
        (runSession runMode sc iterations senv env).cmdLog =
          [Cmd.getValue, Cmd.clearSpectrum, c, Cmd.validateSpectrum] ++ t) ∧
    ((senv.defineOk = false ∨ senv.validateOk = false) →
      (runSession runMode sc iterations senv env).adStatus = ADStat.error ∧
      Cmd.start ∉ (runSession runMode sc iterations senv env).cmdLog) := by
  obtain ⟨c, hc⟩ := defineCmdOf_valid runMode h0 h4
  constructor
  · intro hstart
    cases halloc : (runSetup runMode sc iterations senv).alloc with
    | none =>
        obtain ⟨-, hlog⟩ := runSession_setup_failed runMode sc iterations senv env halloc
        rw [hlog] at hstart
        exact absurd hstart (runSetup_log_no_start runMode sc iterations senv)
    | some a =>
        have hsome : ((runSetup runMode sc iterations senv).alloc).isSome = true := by
          simp [halloc]
        obtain ⟨hg, hd, hv⟩ :=
          (runSetup_alloc_isSome runMode sc iterations senv c hc).mp hsome
        obtain ⟨t, ht⟩ := runSession_cmdLog_extends runMode sc iterations senv env
        refine ⟨hg, hd, hv, c, t, hc, ?_⟩
        rw [ht, runSetup_success_log runMode sc iterations senv c hc hg hd hv]
  · intro hfail
    have hnone : (runSetup runMode sc iterations senv).alloc = none := by
      rcases h : (runSetup runMode sc iterations senv).alloc with - | a
      · rfl
      · have hsome : ((runSetup runMode sc iterations senv).alloc).isSome = true := by
          simp [h]
        obtain ⟨hg, hd, hv⟩ :=
          (runSetup_alloc_isSome runMode sc iterations senv c hc).mp hsome
        rcases hfail with hf | hf <;> simp_all
    obtain ⟨herr, hlog⟩ := runSession_setup_failed runMode sc iterations senv env hnone
    exact ⟨herr, hlog ▸ runSetup_log_no_start runMode sc iterations senv⟩

/-- Witness for C7 at a concrete successful FAT session: `Start` appears
in the log, so both exchanges succeeded and precede it. -/
theorem c7_start_needs_define_validate_witness :
    (⟨true, true, true, 2⟩ : SetupEnv).getParamOk = true ∧
    (⟨true, true, true, 2⟩ : SetupEnv).defineOk = true ∧
    (⟨true, true, true, 2⟩ : SetupEnv).validateOk = true ∧
    ∃ c t, defineCmdOf 0 = some c ∧
      (runSession 0 ⟨0, 0, 1, 1, 1⟩ 1 ⟨true, true, true, 2⟩
        (fun _ => ⟨"x", []⟩)).cmdLog =
        [Cmd.getValue, Cmd.clearSpectrum, c, Cmd.validateSpectrum] ++ t :=
  (c7_start_needs_define_validate 0 ⟨0, 0, 1, 1, 1⟩ 1 ⟨true, true, true, 2⟩
    (fun _ => ⟨"x", []⟩) (by decide) (by decide)).1 (by decide)

/-- Counterexample to C7 as stated: with the out-of-range run mode 5 the
`switch` falls to its `default:` branch, which leaves `status` untouched,
so no `DefineSpectrum` request is ever sent, yet `ValidateSpectrum`
succeeds and the session issues `Start`. -/
theorem c7_start_without_define_counterexample :
    Cmd.start ∈ (runSession 5 ⟨0, 0, 1, 1, 1⟩ 1 ⟨true, true, true, 2⟩
      (fun _ => ⟨"x", []⟩)).cmdLog ∧
    Cmd.defineFAT ∉ (runSession 5 ⟨0, 0, 1, 1, 1⟩ 1 ⟨true, true, true, 2⟩
      (fun _ => ⟨"x", []⟩)).cmdLog ∧
    Cmd.defineSFAT ∉ (runSession 5 ⟨0, 0, 1, 1, 1⟩ 1 ⟨true, true, true, 2⟩
      (fun _ => ⟨"x", []⟩)).cmdLog ∧
    Cmd.defineFRR ∉ (runSession 5 ⟨0, 0, 1, 1, 1⟩ 1 ⟨true, true, true, 2⟩
      (fun _ => ⟨"x", []⟩)).cmdLog ∧
    Cmd.defineFE ∉ (runSession 5 ⟨0, 0, 1, 1, 1⟩ 1 ⟨true, true, true, 2⟩
      (fun _ => ⟨"x", []⟩)).cmdLog ∧
    Cmd.defineLVS ∉ (runSession 5 ⟨0, 0, 1, 1, 1⟩ 1 ⟨true, true, true, 2⟩
      (fun _ => ⟨"x", []⟩)).cmdLog := by
  refine ⟨?_, ?_, ?_, ?_, ?_, ?_⟩ <;> decide


/-!
### The short-read invariant (C6)
-/

/-- Once the too-few-data branch has run, the loop status is error, the
`Abort` request is in the log, the published state is Error with the
receive-error message — and no `GetAcquisitionData` request has ever been
issued after that branch ran. -/
def ShortInv (st : AcqState) : Prop :=
  (st.shortRead = true →
    st.status = false ∧ Cmd.abort ∈ st.cmdLog ∧
    st.adStatus = ADStat.error ∧ st.statusMsg = "KREIOS Receive Error") ∧
  st.postShortReads = 0

set_option maxHeartbeats 1000000 in
theorem pollBody_shortInv (S V N ndims : ℕ) (e : PollEvent) (st : AcqState)
    (hg : innerGuard S st = true) (hinv : ShortInv st) :
    ShortInv (pollBody S V N ndims e st) := by
  have hstatus : st.status = true := by
    simp [innerGuard] at hg
    tauto
  have hsr : st.shortRead = false := by
    by_contra hcon
    have h' : st.shortRead = true := by simpa using hcon
    have := (hinv.1 h').1
    simp_all
  have hpost : st.postShortReads = 0 := hinv.2
  unfold ShortInv
  simp only [pollBody, pollTail]
  simp only [hsr, hpost]
  repeat' split
  all_goals refine ⟨fun hh => ?_, ?_⟩
  any_goals (exfalso
             simp only [distributeChunk_shortRead] at hh
             simp at hh)
  any_goals (refine ⟨rfl, ?_, rfl, rfl⟩
             simp)
  any_goals simp [distributeChunk_postShortReads]
  all_goals simp_all

theorem innerLoop_shortInv (S V N ndims : ℕ) (evts : List PollEvent) (st : AcqState)
    (hinv : ShortInv st) : ShortInv (innerLoop S V N ndims evts st) := by
  induction evts generalizing st with
  | nil => simpa [innerLoop] using hinv
  | cons e rest ih =>
      by_cases h : innerGuard S st = true
      · rw [innerLoop, if_pos h]
        exact ih (pollBody S V N ndims e st) (pollBody_shortInv S V N ndims e st h hinv)
      · rw [innerLoop, if_neg h]
        exact hinv

theorem outerIterStep_shortInv (S V N ndims : ℕ) (env : ℕ → IterEnv) (st : AcqState)
    (hinv : ShortInv st) : ShortInv (outerIterStep S V N ndims env st) := by
  have hmid : ShortInv
      { st with
        cmdLog := st.cmdLog ++ [Cmd.clearSpectrum, Cmd.start, Cmd.getStatus],
        currentDataPoint := 0, numDataPoints := 0,
        ctrlState := (env st.iteration).initCtrl } := by
    refine ⟨fun h => ?_, hinv.2⟩
    obtain ⟨a, b, c, d⟩ := hinv.1 (by simpa using h)
    exact ⟨a, List.mem_append_left _ b, c, d⟩
  have h2 := innerLoop_shortInv S V N ndims (env st.iteration).polls _ hmid
  unfold outerIterStep
  exact ⟨fun h => h2.1 (by simpa using h), h2.2⟩

theorem outerLoop_shortInv (S V N ndims : ℕ) (env : ℕ → IterEnv) (n : ℕ) (st : AcqState)
    (hinv : ShortInv st) : ShortInv (outerLoop S V N ndims env n st) := by
  induction n generalizing st with
  | zero => simpa [outerLoop] using hinv
  | succ n ih =>
      by_cases h : st.acquire = true
      · rw [outerLoop, if_pos h]
        exact ih _ (outerIterStep_shortInv S V N ndims env st hinv)
      · rw [outerLoop, if_neg h]
        exact hinv

theorem runSession_shortInv (runMode : ℤ) (sc : Scalars) (iterations : ℤ)
    (senv : SetupEnv) (env : ℕ → IterEnv) :
    ShortInv (runSession runMode sc iterations senv env) := by
  unfold runSession
  cases halloc : (runSetup runMode sc iterations senv).alloc with
  | none => simp only [halloc]; exact ⟨by simp, rfl⟩
  | some a =>
      simp only [halloc]
      have h1 := outerLoop_shortInv
        (runSetup runMode sc iterations senv).energyChannels.toNat
        (runSetup runMode sc iterations senv).vClamped
        (runSetup runMode sc iterations senv).nClamped a.ndims env iterations.toNat
        { status := true, acquire := true, adAcquireParam := true,
          adStatus := ADStat.initializing, statusMsg := "Executing pre-scan...",
          ctrlState := "", currentDataPoint := 0, numDataPoints := 0, iteration := 0,
          spectrum := fun _ => 0, image := fun _ => 0, volume := fun _ => 0,
          ndData := fun _ => 0, cmdLog := (runSetup runMode sc iterations senv).cmdLog,
          shortRead := false, postShortReads := 0, iterEndSpectrum := [] }
        ⟨by simp, rfl⟩
      split
      · next hcond =>
          refine ⟨fun h => ?_, by simpa using h1.2⟩
          exfalso
          have hsr := h1.1 (by simpa using h)
          simp only [Bool.and_eq_true] at hcond
          simp_all
      · next hcond =>
          refine ⟨fun h => ?_, by simpa using h1.2⟩
          obtain ⟨ha, hb, hc, hd⟩ := h1.1 (by simpa using h)
          exact ⟨by simpa using ha, by simpa using hb, by simpa using hc, by simpa using hd⟩

/-- C6: whenever a data read returns fewer doubles than
`(readEndDataPoint - currentDataPoint) * nonEnergyChannels` — the
`shortRead` flag records exactly that the branch at kreios.cpp lines
658-666 ran — the session has issued `Abort`, its state is Error with the
`KREIOS Receive Error` status message, the loop status is error, and no
`GetAcquisitionData` request was issued after that point
(`postShortReads = 0`), i.e. no further data is consumed in the session. -/
theorem c6_short_read_fatal (runMode : ℤ) (sc : Scalars) (iterations : ℤ)
    (senv : SetupEnv) (env : ℕ → IterEnv)
    (h : (runSession runMode sc iterations senv env).shortRead = true) :
    Cmd.abort ∈ (runSession runMode sc iterations senv env).cmdLog ∧
    (runSession runMode sc iterations senv env).adStatus = ADStat.error ∧
    (runSession runMode sc iterations senv env).statusMsg = "KREIOS Receive Error" ∧
    (runSession runMode sc iterations senv env).status = false ∧
    (runSession runMode sc iterations senv env).postShortReads = 0 := by
  have hinv := runSession_shortInv runMode sc iterations senv env
  obtain ⟨ha, hb, hc, hd⟩ := hinv.1 h
  exact ⟨hb, hc, hd, ha, hinv.2⟩

/-- Witness for C6: a 1-D session with S = 2 whose first poll reports two
acquired points but whose data reply carries no values — a short read. -/
theorem c6_short_read_fatal_witness :
    (runSession 0 ⟨0, 0, 1, 1, 1⟩ 1 ⟨true, true, true, 2⟩
      (fun _ => ⟨"running", [⟨true, false, "running", some 2, [], none⟩]⟩)).shortRead
        = true ∧
    Cmd.abort ∈ (runSession 0 ⟨0, 0, 1, 1, 1⟩ 1 ⟨true, true, true, 2⟩
      (fun _ => ⟨"running", [⟨true, false, "running", some 2, [], none⟩]⟩)).cmdLog :=
  ⟨by decide,
   (c6_short_read_fatal 0 ⟨0, 0, 1, 1, 1⟩ 1 ⟨true, true, true, 2⟩
     (fun _ => ⟨"running", [⟨true, false, "running", some 2, [], none⟩]⟩)
     (by decide)).1⟩


/-!
### The idealized constant-intensity run (C4)
-/

/-- Environment of the idealized constant-intensity run: every iteration
reports both samples acquired and `finished`, delivering the constant
value `c` at each of the two energy points. -/
def constRunEnv (c : ℚ) : ℕ → IterEnv :=
  fun _ => ⟨"running", [⟨true, false, "finished", some 2, [c, c], none⟩]⟩

/-- The idealized 1-D session: FAT mode, S = 2 energy points, V = N = 1,
three requested iterations, constant intensity `c`. -/
def constRun (c : ℚ) : AcqState :=
  runSession 0 ⟨0, 0, 1, 1, 1⟩ 3 ⟨true, true, true, 2⟩ (constRunEnv c)

theorem c4_setup_eval : runSetup 0 ⟨0, 0, 1, 1, 1⟩ 3 ⟨true, true, true, 2⟩ =
    { status := true,
      cmdLog := [Cmd.getValue, Cmd.clearSpectrum, Cmd.defineFAT, Cmd.validateSpectrum],
      energyChannels := 2, samplesIterationParam := 2, samplesTotalParam := 6,
      vClamped := 1, nClamped := 1,
      alloc := some { ndims := 1, dims := [2], spectrumSize := 2, imageSize := none,
                      volumeSize := none, ndArraySizeX := 2, ndArraySizeY := none,
                      nbytes := 16 } } := rfl

/-- C4 (amended): iteration 0 writes each received value into the
accumulator cell by assignment and every iteration j >= 1 adds into the
same cell; in the idealized run where the server returns the constant
value c at every point with R = 3 iterations, at completion
spectrum[s] = 3c for every energy index s, the updates of the first
iteration are assignments (the snapshot after iteration 0 holds exactly
the received value c), and — provided c > 0 — every subsequent iteration
strictly increases spectrum[s].  (The original claim, with no sign
condition on c, fails at c = 0; see the counterexample.) -/
theorem c4_three_iteration_accumulation (c : ℚ) :
    (∀ (values : List ℚ) (st : Dist1) (x : ℕ),
      (store1DStep 0 values st x).spectrum x = values.getD st.index 0) ∧
    (∀ (j : ℕ) (values : List ℚ) (st : Dist1) (x : ℕ), j ≠ 0 →
      (store1DStep j values st x).spectrum x = st.spectrum x + values.getD st.index 0) ∧
    (∀ s, s < 2 → (constRun c).spectrum s = 3 * c) ∧
    (∀ s, s < 2 → ((constRun c).iterEndSpectrum.getD 0 (fun _ => 0)) s = c) ∧
    (0 < c → ∀ s, s < 2 →
      ((constRun c).iterEndSpectrum.getD 0 (fun _ => 0)) s <
        ((constRun c).iterEndSpectrum.getD 1 (fun _ => 0)) s ∧
      ((constRun c).iterEndSpectrum.getD 1 (fun _ => 0)) s <
        ((constRun c).iterEndSpectrum.getD 2 (fun _ => 0)) s) := by
  have hr : List.range' 0 2 = [0, 1] := rfl
  refine ⟨?_, ?_, ?_, ?_, ?_⟩
  · intro values st x
    simp [store1DStep]
  · intro j values st x hj
    simp [store1DStep, hj]
  · intro s hs
    interval_cases s <;>
      (simp [constRun, constRunEnv, runSession, c4_setup_eval, outerLoop, outerIterStep,
        innerLoop, innerGuard, pollBody, pollTail, distributeChunk, store1D, store1DStep,
        hr, Function.update]
       ring)
  · intro s hs
    interval_cases s <;>
      simp [constRun, constRunEnv, runSession, c4_setup_eval, outerLoop, outerIterStep,
        innerLoop, innerGuard, pollBody, pollTail, distributeChunk, store1D, store1DStep,
        hr, Function.update]
  · intro hc s hs
    interval_cases s <;>
      (constructor <;>
        (simp [constRun, constRunEnv, runSession, c4_setup_eval, outerLoop, outerIterStep,
          innerLoop, innerGuard, pollBody, pollTail, distributeChunk, store1D, store1DStep,
          hr, Function.update]
         linarith))

/-- Witness for C4 at c = 1: the completed spectrum is 3, and iteration 1
strictly increased cell 0. -/
theorem c4_three_iteration_accumulation_witness :
    (constRun 1).spectrum 0 = 3 * 1 ∧
    ((constRun 1).iterEndSpectrum.getD 0 (fun _ => 0)) 0 <
      ((constRun 1).iterEndSpectrum.getD 1 (fun _ => 0)) 0 :=
  ⟨(c4_three_iteration_accumulation 1).2.2.1 0 (by norm_num),
   ((c4_three_iteration_accumulation 1).2.2.2.2 (by norm_num) 0 (by norm_num)).1⟩

/-- Counterexample to C4 as stated: with constant intensity c = 0 the
accumulator never strictly increases — after iterations 0 and 1 the cell
still holds 0 — so "subsequent iterations strictly increase spectrum[s]"
fails for c = 0 although the rest of the claim (assignment then addition,
final value 3c = 0) holds. -/
theorem c4_zero_not_strictly_increasing :
    ((constRun 0).iterEndSpectrum.getD 0 (fun _ => 0)) 0 = 0 ∧
    ((constRun 0).iterEndSpectrum.getD 1 (fun _ => 0)) 0 = 0 ∧
    ¬ ((constRun 0).iterEndSpectrum.getD 0 (fun _ => 0)) 0 <
      ((constRun 0).iterEndSpectrum.getD 1 (fun _ => 0)) 0 := by
  have hr : List.range' 0 2 = [0, 1] := rfl
  refine ⟨?_, ?_, ?_⟩ <;>
    simp [constRun, constRunEnv, runSession, c4_setup_eval, outerLoop, outerIterStep,
      innerLoop, innerGuard, pollBody, pollTail, distributeChunk, store1D, store1DStep,
      hr, Function.update]


end Kreios
